import Mathlib

set_option synthInstance.maxSize 2048

/-!
Verification development for the HypernativeAlerts ingestion pipeline.

The Python source is shallowly embedded: each decoder and row-building
function is translated into a Lean definition.  Python's exception
behaviour is made explicit: a list index that can be out of range is
modelled with `List.get?`, and a function that can raise returns a
`PResult` whose `err` constructor stands for a raised exception
(`IndexError`).  `str.split(" ")` is `pySplit` (identical semantics,
including `"" ↦ [""]` and empty fields between consecutive separators),
`" ".join(xs)` is `pyJoin xs`, and `str.upper()` is `pyUpper` (the tags
involved are ASCII).
-/

namespace HN

/-- Outcome of a Python name decoder: `err` = an exception was raised
(out-of-range token access), `noMatch` = the function returned `None`,
`ok` = a structured tuple was returned. -/
inductive PResult (α : Type) where
  | err : PResult α
  | noMatch : PResult α
  | ok : α → PResult α
deriving DecidableEq, Repr

/-- Suite tuple: (contract_type, blockchain, protocol, address, symbol, label). -/
abbrev SuitParse := String × String × String × String × String × String

/-- Monitor tuple: (risk_id, contract_type, blockchain, protocol, address, symbol, label). -/
abbrev MonParse := String × String × String × String × String × String × String

/-- Split a character list at every occurrence of `sep`, keeping empty
fields (the behaviour of Python `str.split(sep)` with an explicit
separator): `[] ↦ [[]]`, and consecutive separators produce empty
fields. -/
def splitChars (sep : Char) : List Char → List (List Char)
  | [] => [[]]
  | c :: cs =>
    if c = sep then [] :: splitChars sep cs
    else
      match splitChars sep cs with
      | [] => [[c]]
      | w :: ws => (c :: w) :: ws

/-- Python `name.split(" ")`: `"" ↦ [""]`, empty fields kept between
consecutive spaces. -/
def pySplit (s : String) : List String :=
  (splitChars ' ' s.data).map List.asString

/-- Python `" ".join(l)`. -/
def pyJoin : List String → String
  | [] => ""
  | [x] => x
  | x :: xs => x ++ " " ++ pyJoin xs

/-- Python `s.upper()` (the strings compared in the source are ASCII,
where `Char.toUpper` agrees with Python). -/
def pyUpper (s : String) : String :=
  (s.data.map Char.toUpper).asString

namespace GetHN

/-- `parse_suit_name` from `src/getHN.py` (lines 27-43).  `parts[i]`
accesses are modelled by `List.get?`; a missing index is the raised
`IndexError`, i.e. `PResult.err`. -/
def parse_suit_name (name : String) : PResult SuitParse :=
  let parts := pySplit name
  match parts.get? 0 with
  | none => .err
  | some contract_type =>
    if contract_type ∉ ["[TOKEN]", "[POOL]", "[VAULT]", "[BRIDGE]"] then .noMatch
    else
      match parts.get? 1 with
      | none => .err
      | some blockchain =>
        if contract_type = "[TOKEN]" then
          match parts.get? 2, parts.get? 3 with
          | some address, some symbol =>
              .ok (contract_type, blockchain, "", address, symbol, pyJoin (parts.drop 4))
          | _, _ => .err
        else
          match parts.get? 2, parts.get? 3 with
          | some protocol, some address =>
              .ok (contract_type, blockchain, protocol, address, "", pyJoin (parts.drop 4))
          | _, _ => .err

/-- `parse_watchlist_name` from `src/getHN.py` (lines 46-77). -/
def parse_watchlist_name (name : String) : PResult MonParse :=
  let parts := pySplit name
  match parts.get? 0 with
  | none => .err
  | some risk_id =>
    match parts.get? 1 with
    | none => .err
    | some contract_type =>
      if contract_type = "[PROTOCOL]" then
        match parts.get? 2, parts.get? 3 with
        | some blockchain, some protocol =>
            .ok (risk_id, contract_type, blockchain, protocol, "", "", protocol)
        | _, _ => .err
      else if contract_type = "[TOKEN]" then
        match parts.get? 2, parts.get? 3 with
        | some blockchain, some address =>
            .ok (risk_id, contract_type, blockchain, "", address, "", pyJoin (parts.drop 4))
        | _, _ => .err
      else if contract_type = "[CONSENSUSLAYER]" then
        match parts.get? 2 with
        | some blockchain =>
            .ok (risk_id, contract_type, blockchain, "", "", "", pyJoin (parts.drop 3))
        | none => .err
      else if contract_type = "[MULTISIG]" ∨ contract_type = "[POOL]" then
        match parts.get? 2, parts.get? 3, parts.get? 4 with
        | some blockchain, some protocol, some address =>
            .ok (risk_id, contract_type, blockchain, protocol, address, "", pyJoin (parts.drop 5))
        | _, _, _ => .err
      else if contract_type = "[L2]" then
        .ok (risk_id, contract_type, "", "", "", "", pyJoin (parts.drop 2))
      else .noMatch

/-- `parse_custom_agent_name` from `src/getHN.py` (lines 80-98).
Case-sensitive tag match; the `label` slot takes the single token
`parts[6]` (resp. `parts[5]`), not a join of the remainder. -/
def parse_custom_agent_name (name : String) : PResult MonParse :=
  let parts := pySplit name
  match parts.get? 0 with
  | none => .err
  | some risk_id =>
    match parts.get? 1 with
    | none => .err
    | some contract_type =>
      if contract_type ∈ ["[VAULT]", "[EOA]", "[MULTISIG]", "[POOL]", "[OTHER]",
          "[ORACLE]", "[BRIDGE]", "[TIMELOCK]"] then
        .ok (risk_id, contract_type, parts.getD 2 "", parts.getD 3 "", parts.getD 4 "",
             parts.getD 5 "", parts.getD 6 "")
      else if contract_type = "[TOKEN]" then
        .ok (risk_id, contract_type, parts.getD 2 "", "", parts.getD 3 "",
             parts.getD 4 "", parts.getD 5 "")
      else .noMatch

end GetHN

namespace PerfOpt

/-- `PerformanceOptimizer.parse_suit_name` from
`src/src/performance_optimizer.py` (lines 274-290); the body is the
same as the `getHN.py` version. -/
def parse_suit_name (name : String) : PResult SuitParse :=
  let parts := pySplit name
  match parts.get? 0 with
  | none => .err
  | some contract_type =>
    if contract_type ∉ ["[TOKEN]", "[POOL]", "[VAULT]", "[BRIDGE]"] then .noMatch
    else
      match parts.get? 1 with
      | none => .err
      | some blockchain =>
        if contract_type = "[TOKEN]" then
          match parts.get? 2, parts.get? 3 with
          | some address, some symbol =>
              .ok (contract_type, blockchain, "", address, symbol, pyJoin (parts.drop 4))
          | _, _ => .err
        else
          match parts.get? 2, parts.get? 3 with
          | some protocol, some address =>
              .ok (contract_type, blockchain, protocol, address, "", pyJoin (parts.drop 4))
          | _, _ => .err

/-- `PerformanceOptimizer.parse_watchlist_name` from
`src/src/performance_optimizer.py` (lines 292-323); the body is the
same as the `getHN.py` version. -/
def parse_watchlist_name (name : String) : PResult MonParse :=
  let parts := pySplit name
  match parts.get? 0 with
  | none => .err
  | some risk_id =>
    match parts.get? 1 with
    | none => .err
    | some contract_type =>
      if contract_type = "[PROTOCOL]" then
        match parts.get? 2, parts.get? 3 with
        | some blockchain, some protocol =>
            .ok (risk_id, contract_type, blockchain, protocol, "", "", protocol)
        | _, _ => .err
      else if contract_type = "[TOKEN]" then
        match parts.get? 2, parts.get? 3 with
        | some blockchain, some address =>
            .ok (risk_id, contract_type, blockchain, "", address, "", pyJoin (parts.drop 4))
        | _, _ => .err
      else if contract_type = "[CONSENSUSLAYER]" then
        match parts.get? 2 with
        | some blockchain =>
            .ok (risk_id, contract_type, blockchain, "", "", "", pyJoin (parts.drop 3))
        | none => .err
      else if contract_type = "[MULTISIG]" ∨ contract_type = "[POOL]" then
        match parts.get? 2, parts.get? 3, parts.get? 4 with
        | some blockchain, some protocol, some address =>
            .ok (risk_id, contract_type, blockchain, protocol, address, "", pyJoin (parts.drop 5))
        | _, _, _ => .err
      else if contract_type = "[L2]" then
        .ok (risk_id, contract_type, "", "", "", "", pyJoin (parts.drop 2))
      else .noMatch

/-- `PerformanceOptimizer.parse_custom_agent_name` from
`src/src/performance_optimizer.py` (lines 325-360).  Guards every token
access with a length check (`parts[i] if len(parts) > i else ""`, here
`parts.getD i ""`), matches the tag case-insensitively via
`contract_type.upper()`, and for an unrecognized tag with at least four
tokens falls back to `contract_type = "[OTHER]"` with the fields read
from positions 1..4.  A bare `name.split(" ")` is never empty, but the
code's `len(parts) == 0` branch (`return None`) is translated anyway. -/
def parse_custom_agent_name (name : String) : PResult MonParse :=
  let parts := pySplit name
  if parts.length < 2 then
    if parts.length = 1 then
      .ok (parts.getD 0 "", "[OTHER]", "", "", "", "", "")
    else
      .noMatch
  else
    let risk_id := parts.getD 0 ""
    let contract_type := parts.getD 1 ""
    let contract_type_upper := pyUpper contract_type
    if contract_type_upper ∈ ["[VAULT]", "[EOA]", "[MULTISIG]", "[POOL]", "[OTHER]",
        "[ORACLE]", "[BRIDGE]", "[TIMELOCK]"] then
      .ok (risk_id, contract_type, parts.getD 2 "", parts.getD 3 "", parts.getD 4 "",
           parts.getD 5 "",
           if parts.length > 6 then pyJoin (parts.drop 6) else "")
    else if contract_type_upper = "[TOKEN]" then
      .ok (risk_id, contract_type, parts.getD 2 "", "", parts.getD 3 "",
           parts.getD 4 "",
           if parts.length > 5 then pyJoin (parts.drop 5) else "")
    else
      if parts.length ≥ 4 then
        .ok (risk_id, "[OTHER]", parts.getD 1 "", parts.getD 2 "", parts.getD 3 "",
             parts.getD 4 "",
             if parts.length > 5 then pyJoin (parts.drop 5) else "")
      else
        .noMatch

end PerfOpt

/-- One entry of a channel's configuration inside an alert policy
(`{"name": ...}`); a missing `name` key is `none`. -/
structure ChannelConfig where
  name : Option String
deriving DecidableEq, Repr

/-- One alert policy (`{"channelsConfigurations": [...]}`); a missing
key is `none` and `p.get("channelsConfigurations", [])` is `getD []`. -/
structure AlertPolicy where
  channelsConfigurations : Option (List ChannelConfig)
deriving DecidableEq, Repr

/-- Python `list(dict.fromkeys(out))`: de-duplicate keeping the first
occurrence of each element, preserving insertion order. -/
def pyDictFromKeys (l : List String) : List String :=
  l.foldl (fun acc x => if x ∈ acc then acc else acc ++ [x]) []

/-- The nested loops of `extract_channels` before de-duplication: the
`name` of every channel configuration of every policy in encounter
order, skipping falsy names (`if name:` drops a missing `name` and the
empty string). -/
def collect_channel_names (alert_policies : Option (List AlertPolicy)) : List String :=
  (alert_policies.getD []).flatMap (fun p =>
    (p.channelsConfigurations.getD []).filterMap (fun cc =>
      match cc.name with
      | some n => if n = "" then none else some n
      | none => none))

/-- `extract_channels` from `src/src/performance_optimizer.py` (lines
362-370); the body in `src/src/getHN.py` (lines 101-122) is the same.
`alert_policies or []` is `getD []` (a `None` payload iterates over
nothing). -/
def extract_channels (alert_policies : Option (List AlertPolicy)) : List String :=
  pyDictFromKeys (collect_channel_names alert_policies)

/-- One entry of the static channel directory
(`{"name": ..., "dao": ...}`); `dao` is `none` when the key is missing
or holds Python `None`, and Python truthiness additionally treats
`some ""` as falsy. -/
structure ChannelEntry where
  name : String
  dao : Option String
deriving DecidableEq, Repr

/-- The dict comprehension building `channel_dao_map` in
`get_client_dao` (`src/src/performance_optimizer.py` lines 266-270) and
in `get_hn_monitors` (`src/src/getHN.py` lines 133-137): keep entries
whose `dao` is truthy and not the string `"None"`.  A Python dict is
modelled as an association list where a later binding for the same key
overwrites an earlier one (see `pyDictGet`). -/
def channel_dao_map (channels : List ChannelEntry) : List (String × String) :=
  channels.filterMap (fun e =>
    match e.dao with
    | some d => if d ≠ "" ∧ d ≠ "None" then some (e.name, d) else none
    | none => none)

/-- Python `m.get(k, d)` on a dict built by insertion: the value of the
last binding of `k`, else the default. -/
def pyDictGet (m : List (String × String)) (k d : String) : String :=
  match m.reverse.lookup k with
  | some v => v
  | none => d

/-- `PerformanceOptimizer.get_client_dao` from
`src/src/performance_optimizer.py` (lines 264-271), with the static
`channels` directory (imported from `src.channels`, not part of the
pipeline sources) passed explicitly. -/
def get_client_dao (channels : List ChannelEntry) (channel : String) : String :=
  if channel ≠ "None" then pyDictGet (channel_dao_map channels) channel "None"
  else "None"

/-- One output record of the pipeline, with the exact keys of the dicts
appended to `flattened_rows`. -/
structure Row where
  fullSuiteName : String
  suitContractType : String
  suitBlockchain : String
  suitProtocol : String
  suitAddress : String
  suitSymbol : String
  suitLabel : String
  fullMonitorName : String
  monitorType : String
  monitorRiskID : String
  monitorContractType : String
  monitorBlockchain : String
  monitorProtocol : String
  monitorAddress : String
  monitorSymbol : String
  monitorLabel : String
  monitorAlertChannel : String
  monitorDescription : String
  monitorLink : String
  monitor : String
  Client : String
deriving DecidableEq, Repr

/-- Python truthiness of an optional integer id (`if wl_data.get('id')`):
falsy when missing or zero. -/
def pyTruthyNat : Option Nat → Bool
  | none => false
  | some n => n ≠ 0

/-- The body of a watchlist-detail response
(`GET /watchlists/{id}/` → `data`); each field models `.get` access on
the JSON dict. -/
structure WlData where
  id : Option Nat
  name : Option String
  description : Option String
  alertPolicies : Option (List AlertPolicy)
deriving DecidableEq, Repr

/-- The `rule` object of a custom-agent payload; `ruleString` is `none`
when the key is missing. -/
structure Rule where
  ruleString : Option String
deriving DecidableEq, Repr

/-- The body of a custom-agent-detail response
(`GET /custom-agents/{id}/` → `data`). -/
structure AgentData where
  id : Option Nat
  agentName : Option String
  agentType : Option String
  rule : Option Rule
  alertPolicies : Option (List AlertPolicy)
deriving DecidableEq, Repr

namespace PerfOpt

/-- `PerformanceOptimizer._fetch_watchlist_data`
(`src/src/performance_optimizer.py` lines 165-208) after the HTTP
response has been read into `wl_data`.  A decode exception
(`PResult.err`) propagates to `_fetch_monitor_data`'s `try/except`,
which turns it into zero rows, so both `err` and `noMatch` yield `[]`
here. -/
def fetch_watchlist_rows (channels : List ChannelEntry) (suit_name : String)
    (parsed_suit : SuitParse) (wl_data : WlData) : List Row :=
  let wl_name := wl_data.name.getD ""
  match parse_watchlist_name wl_name with
  | .ok (risk_id, mon_contract_type, mon_blockchain, mon_protocol,
         mon_address, mon_symbol, mon_label) =>
    match parsed_suit with
    | (s_ct, s_bc, s_proto, s_addr, s_sym, s_label) =>
      let alert_channels := extract_channels wl_data.alertPolicies
      let channels_for_rows := if alert_channels.isEmpty then ["None"] else alert_channels
      channels_for_rows.map (fun ch =>
        { fullSuiteName := suit_name
          suitContractType := s_ct
          suitBlockchain := s_bc
          suitProtocol := s_proto
          suitAddress := s_addr
          suitSymbol := s_sym
          suitLabel := s_label
          fullMonitorName := wl_name
          monitorType := "Watchlist"
          monitorRiskID := risk_id
          monitorContractType := mon_contract_type
          monitorBlockchain := mon_blockchain
          monitorProtocol := mon_protocol
          monitorAddress := mon_address
          monitorSymbol := mon_symbol
          monitorLabel := mon_label
          monitorAlertChannel := ch
          monitorDescription := wl_data.description.getD ""
          monitorLink :=
            if pyTruthyNat wl_data.id then
              "https://app.hypernative.xyz/watchlist/" ++ toString (wl_data.id.getD 0)
            else ""
          monitor := "Watchlist"
          Client := get_client_dao channels ch })
  | .noMatch => []
  | .err => []

/-- `PerformanceOptimizer._fetch_agent_data`
(`src/src/performance_optimizer.py` lines 210-262) after the HTTP
response has been read into `agent_data`.  The `try` around
`agent_data["rule"]["ruleString"]` falls back to `agent_name` on any
missing key. -/
def fetch_agent_rows (channels : List ChannelEntry) (suit_name : String)
    (parsed_suit : SuitParse) (agent_data : AgentData) : List Row :=
  let agent_name := agent_data.agentName.getD ""
  let agent_type := agent_data.agentType.getD "Custom Agent"
  match parse_custom_agent_name agent_name with
  | .ok (risk_id, mon_contract_type, mon_blockchain, mon_protocol,
         mon_address, mon_symbol, mon_label) =>
    match parsed_suit with
    | (s_ct, s_bc, s_proto, s_addr, s_sym, s_label) =>
      let alert_channels := extract_channels agent_data.alertPolicies
      let channels_for_rows := if alert_channels.isEmpty then ["None"] else alert_channels
      let rule_string :=
        match agent_data.rule with
        | some r =>
          match r.ruleString with
          | some s => s
          | none => agent_name
        | none => agent_name
      channels_for_rows.map (fun ch =>
        { fullSuiteName := suit_name
          suitContractType := s_ct
          suitBlockchain := s_bc
          suitProtocol := s_proto
          suitAddress := s_addr
          suitSymbol := s_sym
          suitLabel := s_label
          fullMonitorName := agent_name
          monitorType := agent_type
          monitorRiskID := risk_id
          monitorContractType := mon_contract_type
          monitorBlockchain := mon_blockchain
          monitorProtocol := mon_protocol
          monitorAddress := mon_address
          monitorSymbol := mon_symbol
          monitorLabel := mon_label
          monitorAlertChannel := ch
          monitorDescription := rule_string
          monitorLink :=
            if pyTruthyNat agent_data.id then
              "https://app.hypernative.xyz/custom-agents?agentId=" ++ toString (agent_data.id.getD 0)
            else ""
          monitor := "Custom Agent"
          Client := get_client_dao channels ch })
  | .noMatch => []
  | .err => []

end PerfOpt

namespace GetHN

/-- The custom-agent loop body of `get_hn_monitors` (`src/src/getHN.py`
lines 219-282) after the HTTP response has been read into `agent_data`.
The `try` around `agent_data["rule"]["ruleString"]` falls back to the
constant warning string; a decode exception inside the loop body is
caught by the surrounding `try/except`, contributing zero rows. -/
def agent_rows (channel_dao_map_arg : List (String × String)) (suit_name : String)
    (parsed_suit : SuitParse) (agent_data : AgentData) : List Row :=
  let agent_name := agent_data.agentName.getD ""
  let agent_type := agent_data.agentType.getD "Custom Agent"
  match parse_custom_agent_name agent_name with
  | .ok (risk_id, mon_contract_type, mon_blockchain, mon_protocol,
         mon_address, mon_symbol, mon_label) =>
    match parsed_suit with
    | (s_ct, s_bc, s_proto, s_addr, s_sym, s_label) =>
      let alert_channels := extract_channels agent_data.alertPolicies
      let channels_for_rows := if alert_channels.isEmpty then ["None"] else alert_channels
      let rule_string :=
        match agent_data.rule with
        | some r =>
          match r.ruleString with
          | some s => s
          | none => "⚠️ Incomplete due to missing ruleString"
        | none => "⚠️ Incomplete due to missing ruleString"
      channels_for_rows.map (fun ch =>
        { fullSuiteName := suit_name
          suitContractType := s_ct
          suitBlockchain := s_bc
          suitProtocol := s_proto
          suitAddress := s_addr
          suitSymbol := s_sym
          suitLabel := s_label
          fullMonitorName := agent_name
          monitorType := agent_type
          monitorRiskID := risk_id
          monitorContractType := mon_contract_type
          monitorBlockchain := mon_blockchain
          monitorProtocol := mon_protocol
          monitorAddress := mon_address
          monitorSymbol := mon_symbol
          monitorLabel := mon_label
          monitorAlertChannel := ch
          monitorDescription := rule_string
          monitorLink :=
            if pyTruthyNat agent_data.id then
              "https://app.hypernative.xyz/custom-agents?agentId=" ++ toString (agent_data.id.getD 0)
            else ""
          monitor := "Custom Agent"
          Client := if ch ≠ "None" then pyDictGet channel_dao_map_arg ch "None" else "None" })
  | .noMatch => []
  | .err => []

end GetHN

/-- Contents of `cache/cache_metadata.json` as written by
`save_to_cache`.  Timestamps are modelled as a count of seconds. -/
structure CacheMetadata where
  timestamp : Nat
  row_count : Nat
  cache_version : String
deriving DecidableEq, Repr

/-- The on-disk cache of `PerformanceOptimizer`: the data file
`cache/hn_data.json` and the metadata file `cache/cache_metadata.json`.
`none` models a missing or unreadable file (every read error in the
source is swallowed and treated as absence). -/
structure CacheState where
  metadata : Option CacheMetadata
  data : Option (List Row)
deriving DecidableEq, Repr

/-- `self.cache_duration = 300` (five minutes). -/
def cache_duration : Nat := 300

namespace PerfOpt

/-- `PerformanceOptimizer.is_cache_valid`
(`src/src/performance_optimizer.py` lines 53-63): false when the
metadata is missing or empty (`fromisoformat('')` raises, caught as
false); otherwise `now - timestamp < cache_duration`.  Natural-number
truncation makes a future timestamp validate, as the signed comparison
does in Python. -/
def is_cache_valid (now : Nat) (st : CacheState) : Bool :=
  match st.metadata with
  | none => false
  | some m => now - m.timestamp < cache_duration

/-- `PerformanceOptimizer.load_from_cache`
(`src/src/performance_optimizer.py` lines 65-80): `none` when the cache
is invalid, the data file is missing, or reading fails. -/
def load_from_cache (now : Nat) (st : CacheState) : Option (List Row) :=
  if is_cache_valid now st then st.data else none

/-- `PerformanceOptimizer.save_to_cache`
(`src/src/performance_optimizer.py` lines 82-98): writes the data file,
then fresh metadata with the current timestamp. -/
def save_to_cache (now : Nat) (rows : List Row) (_st : CacheState) : CacheState :=
  { data := some rows
    metadata := some { timestamp := now, row_count := rows.length, cache_version := "1.0" } }

/-- The `try` block of `get_hn_monitors_optimized`
(`src/src/performance_optimizer.py` lines 388-439) after the cache
check: `fetched` abstracts the suite-list request plus the concurrent
fan-out — `Except.error` is an exception escaping the `try` (the run
returns an empty table without touching the cache), `Except.ok rows`
the collected `flattened_rows`.  The result is cached only when
non-empty, and returned regardless. -/
def run_ingestion (now : Nat) (st : CacheState) (fetched : Except Unit (List Row)) :
    List Row × CacheState :=
  match fetched with
  | .error _ => ([], st)
  | .ok rows => if rows.isEmpty then (rows, st) else (rows, save_to_cache now rows st)

/-- `PerformanceOptimizer.get_hn_monitors_optimized`
(`src/src/performance_optimizer.py` lines 372-439): unless
`force_refresh` is set, a valid loadable cache short-circuits the run;
otherwise the ingestion runs (`run_ingestion`).  Returns the table and
the cache state afterwards. -/
def get_hn_monitors_optimized (force_refresh : Bool) (now : Nat) (st : CacheState)
    (fetched : Except Unit (List Row)) : List Row × CacheState :=
  if force_refresh = false then
    match load_from_cache now st with
    | some cached => (cached, st)
    | none => run_ingestion now st fetched
  else run_ingestion now st fetched

end PerfOpt

/-- The sidebar "Refresh Data" control, `src/main.py` lines 173-178: it
sets `st.session_state.force_refresh = True` and clears Streamlit's
in-memory `st.cache_data`.  It performs no operation on the
`PerformanceOptimizer` disk cache, whose state it returns unchanged
alongside the raised force-refresh flag. -/
def refresh_data_action (st : CacheState) : Bool × CacheState := (true, st)

/-- Specification-side first-occurrence de-duplication, stated by
recursion: keep the head, then de-duplicate the tail with every copy of
the head removed.  Used to characterise the `list(dict.fromkeys(...))`
idiom of `extract_channels`. -/
def dedup_first : List String → List String
  | [] => []
  | x :: xs => x :: dedup_first (xs.filter (fun y => y ≠ x))
termination_by l => l.length
decreasing_by
  simp only [List.length_cons]
  exact Nat.lt_succ_of_le (List.length_filter_le _ xs)

/-- A row value with every field empty, used to instantiate universally
quantified statements at a concrete table. -/
def sampleRow : Row :=
  { fullSuiteName := "", suitContractType := "", suitBlockchain := "", suitProtocol := ""
    suitAddress := "", suitSymbol := "", suitLabel := "", fullMonitorName := ""
    monitorType := "", monitorRiskID := "", monitorContractType := "", monitorBlockchain := ""
    monitorProtocol := "", monitorAddress := "", monitorSymbol := "", monitorLabel := ""
    monitorAlertChannel := "", monitorDescription := "", monitorLink := "", monitor := ""
    Client := "" }

/-- A custom-agent payload whose `rule` key is absent. -/
def agentNoRule : AgentData :=
  { id := some 7, agentName := some "R1 [VAULT] eth", agentType := some "Custom Agent",
    rule := none, alertPolicies := none }

/-- A one-entry channel directory: channel `chanA` owned by `DAOX`. -/
def dir0 : List ChannelEntry := [{ name := "chanA", dao := some "DAOX" }]

/-- A watchlist payload with one alert policy naming the single channel
`chanA`. -/
def wl0 : WlData :=
  { id := some 1, name := some "R1 [L2] arb", description := some "d",
    alertPolicies := some [{ channelsConfigurations := some [{ name := some "chanA" }] }] }

/-- A parsed suite tuple used to instantiate row builders. -/
def ps0 : SuitParse := ("[TOKEN]", "eth", "", "0xAA", "SYM", "lbl")

/-- The single row `GetHN.agent_rows` emits for `agentNoRule` under an
empty channel map, suite name `"S"` and suite tuple `ps0`. -/
def ghAgentRow : Row :=
  { fullSuiteName := "S", suitContractType := "[TOKEN]", suitBlockchain := "eth",
    suitProtocol := "", suitAddress := "0xAA", suitSymbol := "SYM", suitLabel := "lbl",
    fullMonitorName := "R1 [VAULT] eth", monitorType := "Custom Agent", monitorRiskID := "R1",
    monitorContractType := "[VAULT]", monitorBlockchain := "eth", monitorProtocol := "",
    monitorAddress := "", monitorSymbol := "", monitorLabel := "",
    monitorAlertChannel := "None",
    monitorDescription := "⚠️ Incomplete due to missing ruleString",
    monitorLink := "https://app.hypernative.xyz/custom-agents?agentId=7",
    monitor := "Custom Agent", Client := "None" }

/-- The single row `PerfOpt.fetch_watchlist_rows` emits for `wl0` under
the directory `dir0`, suite name `"S"` and suite tuple `ps0`. -/
def wlRow : Row :=
  { fullSuiteName := "S", suitContractType := "[TOKEN]", suitBlockchain := "eth",
    suitProtocol := "", suitAddress := "0xAA", suitSymbol := "SYM", suitLabel := "lbl",
    fullMonitorName := "R1 [L2] arb", monitorType := "Watchlist", monitorRiskID := "R1",
    monitorContractType := "[L2]", monitorBlockchain := "", monitorProtocol := "",
    monitorAddress := "", monitorSymbol := "", monitorLabel := "arb",
    monitorAlertChannel := "chanA", monitorDescription := "d",
    monitorLink := "https://app.hypernative.xyz/watchlist/1",
    monitor := "Watchlist", Client := "DAOX" }

theorem dedup_first_nil : dedup_first [] = [] := by rw [dedup_first]

theorem dedup_first_cons (x : String) (xs : List String) :
    dedup_first (x :: xs) = x :: dedup_first (xs.filter (fun y => y ≠ x)) := by
  rw [dedup_first]

theorem foldl_dedup_step (l acc : List String) :
    l.foldl (fun acc x => if x ∈ acc then acc else acc ++ [x]) acc =
      acc ++ dedup_first (l.filter (fun x => x ∉ acc)) := by
  induction l generalizing acc with
  | nil => simp [dedup_first_nil]
  | cons x xs ih =>
    by_cases hx : x ∈ acc
    · simp only [List.foldl_cons, if_pos hx, List.filter_cons, decide_eq_true_eq]
      rw [if_neg (by simpa using hx)]
      exact ih acc
    · simp only [List.foldl_cons, if_neg hx, List.filter_cons]
      rw [if_pos (by simpa using hx)]
      rw [ih (acc ++ [x]), dedup_first_cons, List.filter_filter]
      have hpt : xs.filter (fun y => decide (y ∉ acc ++ [x])) =
          xs.filter (fun y => decide (y ≠ x) && decide (y ∉ acc)) := by
        apply List.filter_congr
        intro y _
        simp [List.mem_append, not_or, Bool.and_comm]
      rw [hpt]
      simp

theorem pyDictFromKeys_eq_dedup_first (l : List String) :
    pyDictFromKeys l = dedup_first l := by
  have h := foldl_dedup_step l []
  simpa [pyDictFromKeys] using h

theorem mem_dedup_first {x : String} {l : List String} :
    x ∈ dedup_first l ↔ x ∈ l := by
  induction l using dedup_first.induct with
  | case1 => simp [dedup_first_nil]
  | case2 a as ih =>
    rw [dedup_first_cons]
    by_cases hxa : x = a
    · simp [hxa]
    · simp only [List.mem_cons, hxa, false_or]
      rw [ih]
      simp [List.mem_filter, hxa]

theorem nodup_dedup_first (l : List String) : (dedup_first l).Nodup := by
  induction l using dedup_first.induct with
  | case1 => simp [dedup_first_nil]
  | case2 a as ih =>
    rw [dedup_first_cons]
    refine List.nodup_cons.mpr ⟨?_, ih⟩
    intro hmem
    rw [mem_dedup_first] at hmem
    simp [List.mem_filter] at hmem

/-- Claim C10: the suite-name and watchlist-name decoders duplicated
across `getHN.py` and `performance_optimizer.py` are extensionally
equal: on every input string they return the same outcome, including
no-match and the raised-exception behaviour (`PResult.err`). -/
theorem C10_duplicated_decoders_agree :
    (∀ name : String, GetHN.parse_suit_name name = PerfOpt.parse_suit_name name) ∧
    (∀ name : String, GetHN.parse_watchlist_name name = PerfOpt.parse_watchlist_name name) :=
  ⟨fun _ => rfl, fun _ => rfl⟩

/-- Claim C1, counterexample: the decoders are not total.
`parse_suit_name "[TOKEN] eth"` and `parse_watchlist_name "R1"` raise
`IndexError` (modelled `PResult.err`) in both implementations, instead
of returning a tuple or the no-match value. -/
theorem C1_counterexample_decoders_raise :
    PerfOpt.parse_suit_name "[TOKEN] eth" = .err ∧
    PerfOpt.parse_watchlist_name "R1" = .err ∧
    GetHN.parse_suit_name "[TOKEN] eth" = .err ∧
    GetHN.parse_watchlist_name "R1" = .err := by
  decide

/-- Claim C1, amended: only the optimizer's `parse_custom_agent_name`
is total (it never raises).  `parse_suit_name` returns no-match without
raising whenever the first token is unrecognized, and
`parse_watchlist_name` whenever the name has at least two tokens and an
unrecognized second token; but on a recognized tag with fewer tokens
than its layout requires, and on a single-token watchlist name, they
raise an out-of-range token access (`PResult.err`). -/
theorem C1_amended_decoder_totality :
    (∀ name : String, PerfOpt.parse_custom_agent_name name ≠ .err) ∧
    (∀ (name ct : String) (rest : List String), pySplit name = ct :: rest →
       ct ∉ (["[TOKEN]", "[POOL]", "[VAULT]", "[BRIDGE]"] : List String) →
       PerfOpt.parse_suit_name name = .noMatch) ∧
    (∀ (name r ct : String) (rest : List String), pySplit name = r :: ct :: rest →
       ct ∉ (["[PROTOCOL]", "[TOKEN]", "[CONSENSUSLAYER]", "[MULTISIG]", "[POOL]",
              "[L2]"] : List String) →
       PerfOpt.parse_watchlist_name name = .noMatch) ∧
    PerfOpt.parse_suit_name "[TOKEN] eth" = .err ∧
    PerfOpt.parse_watchlist_name "R1" = .err := by
  refine ⟨?_, ?_, ?_, by decide, by decide⟩
  · intro name
    unfold PerfOpt.parse_custom_agent_name
    dsimp only
    split
    · split <;> simp
    · split
      · simp
      · split
        · simp
        · split <;> simp
  · intro name ct rest hs hct
    unfold PerfOpt.parse_suit_name
    rw [hs]
    simp [hct]
  · intro name r ct rest hs hct
    unfold PerfOpt.parse_watchlist_name
    rw [hs]
    simp only [List.mem_cons, List.mem_singleton, not_or] at hct
    obtain ⟨h1, h2, h3, h4, h5, h6⟩ := hct
    simp [h1, h2, h3, h4, h5, h6]

/-- Witness for the amended C1, at concrete inputs. -/
theorem C1_amended_witness :
    PerfOpt.parse_custom_agent_name "hello" ≠ .err ∧
    PerfOpt.parse_suit_name "hello world" = .noMatch ∧
    PerfOpt.parse_watchlist_name "R1 [FOO] x" = .noMatch :=
  ⟨C1_amended_decoder_totality.1 "hello",
   C1_amended_decoder_totality.2.1 "hello world" "hello" ["world"] (by decide) (by decide),
   C1_amended_decoder_totality.2.2.1 "R1 [FOO] x" "R1" "[FOO]" ["x"] (by decide) (by decide)⟩

/-- Claim C2, counterexample: on `"R1 foo bar baz"` — whose second
token `foo` is not a recognized contract tag — the optimizer's
`parse_custom_agent_name` does not return no-match: it substitutes the
default tag `[OTHER]` and reinterprets the token positions (`blockchain`
becomes the unrecognized second token). -/
theorem C2_counterexample_default_tag :
    PerfOpt.parse_custom_agent_name "R1 foo bar baz" =
      .ok ("R1", "[OTHER]", "foo", "bar", "baz", "", "") := by
  decide

/-- Claim C2, amended: the `getHN.py` decoder does return no-match for
every name (of at least two tokens) whose second token is not a
recognized tag.  The optimizer decoder returns no-match only when such
a name has exactly two or three tokens; with four or more tokens it
substitutes `[OTHER]` and shifts the fields (blockchain = token 2,
protocol = token 3, address = token 4, symbol = token 5 when present,
label = the joined remainder), and a single-token name yields the token
as risk id with tag `[OTHER]` and empty fields. -/
theorem C2_amended_unrecognized_tag :
    (∀ (name r ct : String) (rest : List String), pySplit name = r :: ct :: rest →
       ct ∉ (["[VAULT]", "[EOA]", "[MULTISIG]", "[POOL]", "[OTHER]", "[ORACLE]",
              "[BRIDGE]", "[TIMELOCK]", "[TOKEN]"] : List String) →
       GetHN.parse_custom_agent_name name = .noMatch) ∧
    (∀ (name r ct : String) (rest : List String), pySplit name = r :: ct :: rest →
       pyUpper ct ∉ (["[VAULT]", "[EOA]", "[MULTISIG]", "[POOL]", "[OTHER]", "[ORACLE]",
              "[BRIDGE]", "[TIMELOCK]", "[TOKEN]"] : List String) →
       rest.length < 2 →
       PerfOpt.parse_custom_agent_name name = .noMatch) ∧
    (∀ (name r ct : String) (rest : List String), pySplit name = r :: ct :: rest →
       pyUpper ct ∉ (["[VAULT]", "[EOA]", "[MULTISIG]", "[POOL]", "[OTHER]", "[ORACLE]",
              "[BRIDGE]", "[TIMELOCK]", "[TOKEN]"] : List String) →
       2 ≤ rest.length →
       PerfOpt.parse_custom_agent_name name =
         .ok (r, "[OTHER]", ct, rest.getD 0 "", rest.getD 1 "", rest.getD 2 "",
              if 3 < rest.length then pyJoin (rest.drop 3) else "")) ∧
    (∀ (name r : String), pySplit name = [r] →
       PerfOpt.parse_custom_agent_name name = .ok (r, "[OTHER]", "", "", "", "", "")) := by
  refine ⟨?_, ?_, ?_, ?_⟩
  · intro name r ct rest hs hct
    unfold GetHN.parse_custom_agent_name
    rw [hs]
    simp only [List.mem_cons, not_or] at hct
    obtain ⟨h1, h2, h3, h4, h5, h6, h7, h8, h9, -⟩ := hct
    simp [h1, h2, h3, h4, h5, h6, h7, h8, h9]
  · intro name r ct rest hs hct hlen
    unfold PerfOpt.parse_custom_agent_name
    rw [hs]
    simp only [List.mem_cons, not_or] at hct
    obtain ⟨h1, h2, h3, h4, h5, h6, h7, h8, h9, -⟩ := hct
    simp [h1, h2, h3, h4, h5, h6, h7, h8, h9]
    omega
  · intro name r ct rest hs hct hlen
    unfold PerfOpt.parse_custom_agent_name
    rw [hs]
    simp only [List.mem_cons, not_or] at hct
    obtain ⟨h1, h2, h3, h4, h5, h6, h7, h8, h9, -⟩ := hct
    simp [h1, h2, h3, h4, h5, h6, h7, h8, h9]
    rw [if_neg (by omega), if_pos hlen]
    have hc : (5 < rest.length + 1 + 1) ↔ (3 < rest.length) := by omega
    simp only [hc]
  · intro name r hs
    unfold PerfOpt.parse_custom_agent_name
    rw [hs]
    simp

/-- Characterisation of the optimizer's `parse_custom_agent_name` on a
name splitting into at least two tokens. -/
theorem parse_custom_agent_cons (r t : String) (rest : List String) (name : String)
    (hs : pySplit name = r :: t :: rest) :
    PerfOpt.parse_custom_agent_name name =
      (if pyUpper t ∈ (["[VAULT]", "[EOA]", "[MULTISIG]", "[POOL]", "[OTHER]", "[ORACLE]",
              "[BRIDGE]", "[TIMELOCK]"] : List String) then
        .ok (r, t, rest.getD 0 "", rest.getD 1 "", rest.getD 2 "", rest.getD 3 "",
             if 4 < rest.length then pyJoin (rest.drop 4) else "")
      else if pyUpper t = "[TOKEN]" then
        .ok (r, t, rest.getD 0 "", "", rest.getD 1 "", rest.getD 2 "",
             if 3 < rest.length then pyJoin (rest.drop 3) else "")
      else if 2 ≤ rest.length then
        .ok (r, "[OTHER]", t, rest.getD 0 "", rest.getD 1 "", rest.getD 2 "",
             if 3 < rest.length then pyJoin (rest.drop 3) else "")
      else .noMatch) := by
  unfold PerfOpt.parse_custom_agent_name
  rw [hs]
  simp only [List.length_cons]
  rw [if_neg (by omega)]
  have hd6 : (r :: t :: rest).drop 6 = rest.drop 4 := rfl
  have hd5 : (r :: t :: rest).drop 5 = rest.drop 3 := rfl
  have hg2 : (r :: t :: rest).getD 2 "" = rest.getD 0 "" := rfl
  have hg3 : (r :: t :: rest).getD 3 "" = rest.getD 1 "" := rfl
  have hg4 : (r :: t :: rest).getD 4 "" = rest.getD 2 "" := rfl
  have hg5 : (r :: t :: rest).getD 5 "" = rest.getD 3 "" := rfl
  have hc6 : (rest.length + 1 + 1 > 6) ↔ (4 < rest.length) := by omega
  have hc5 : (rest.length + 1 + 1 > 5) ↔ (3 < rest.length) := by omega
  have hc4 : (rest.length + 1 + 1 ≥ 4) ↔ (2 ≤ rest.length) := by omega
  simp only [List.getD_cons_zero, List.getD_cons_succ, hd6, hd5, hg2, hg3, hg4, hg5,
    hc6, hc5, hc4, List.length_cons]

/-- Witness for the amended C2, at concrete inputs. -/
theorem C2_amended_witness :
    GetHN.parse_custom_agent_name "R1 foo bar" = .noMatch ∧
    PerfOpt.parse_custom_agent_name "R1 foo bar" = .noMatch ∧
    PerfOpt.parse_custom_agent_name "R1 foo a b" =
      .ok ("R1", "[OTHER]", "foo", "a", "b", "", "") ∧
    PerfOpt.parse_custom_agent_name "solo" = .ok ("solo", "[OTHER]", "", "", "", "", "") :=
  ⟨C2_amended_unrecognized_tag.1 "R1 foo bar" "R1" "foo" ["bar"] (by decide) (by decide),
   C2_amended_unrecognized_tag.2.1 "R1 foo bar" "R1" "foo" ["bar"] (by decide) (by decide)
     (by decide),
   C2_amended_unrecognized_tag.2.2.1 "R1 foo a b" "R1" "foo" ["a", "b"] (by decide) (by decide)
     (by decide),
   C2_amended_unrecognized_tag.2.2.2 "solo" "solo" (by decide)⟩

/-- Claim C6, counterexample: the tag is matched case-insensitively,
but the returned tuple is not identical across tag spellings — the
contract-type component reproduces the tag as written, so
`"R1 [vault] eth"` and `"R1 [VAULT] eth"` decode to different tuples
(`"[vault]"` vs `"[VAULT]"` in the second component). -/
theorem C6_counterexample_tag_case :
    PerfOpt.parse_custom_agent_name "R1 [vault] eth" ≠
      PerfOpt.parse_custom_agent_name "R1 [VAULT] eth" := by
  decide

/-- Claim C6, amended: the optimizer's `parse_custom_agent_name`
matches the contract tag case-insensitively — for two names with the
same risk token and remaining tokens whose tags agree up to letter
case and are recognized, both decode successfully with identical
fields except the contract-type component, which carries each input's
tag verbatim.  (The `getHN.py` variant is fully case-sensitive:
`"[vault]"` is no-match there.) -/
theorem C6_amended_case_insensitive_match :
    (∀ (name name' r t t' : String) (rest : List String),
       pySplit name = r :: t :: rest → pySplit name' = r :: t' :: rest →
       pyUpper t = pyUpper t' →
       pyUpper t ∈ (["[VAULT]", "[EOA]", "[MULTISIG]", "[POOL]", "[OTHER]", "[ORACLE]",
              "[BRIDGE]", "[TIMELOCK]", "[TOKEN]"] : List String) →
       ∃ bc proto addr sym lbl,
         PerfOpt.parse_custom_agent_name name = .ok (r, t, bc, proto, addr, sym, lbl) ∧
         PerfOpt.parse_custom_agent_name name' = .ok (r, t', bc, proto, addr, sym, lbl)) ∧
    GetHN.parse_custom_agent_name "R1 [vault] eth" = .noMatch := by
  constructor
  · intro name name' r t t' rest hs hs' hup hmem
    rw [parse_custom_agent_cons r t rest name hs, parse_custom_agent_cons r t' rest name' hs']
    rw [← hup]
    by_cases h8 : pyUpper t ∈ (["[VAULT]", "[EOA]", "[MULTISIG]", "[POOL]", "[OTHER]",
        "[ORACLE]", "[BRIDGE]", "[TIMELOCK]"] : List String)
    · simp only [if_pos h8]
      exact ⟨_, _, _, _, _, rfl, rfl⟩
    · have htok : pyUpper t = "[TOKEN]" := by
        simp only [List.mem_cons] at hmem h8
        tauto
      simp only [if_neg h8, if_pos htok]
      exact ⟨_, _, _, _, _, rfl, rfl⟩
  · decide

/-- Witness for the amended C6, at the spec's own example pair. -/
theorem C6_amended_witness :
    ∃ bc proto addr sym lbl,
      PerfOpt.parse_custom_agent_name "R1 [vault] eth" =
        .ok ("R1", "[vault]", bc, proto, addr, sym, lbl) ∧
      PerfOpt.parse_custom_agent_name "R1 [VAULT] eth" =
        .ok ("R1", "[VAULT]", bc, proto, addr, sym, lbl) :=
  C6_amended_case_insensitive_match.1 "R1 [vault] eth" "R1 [VAULT] eth" "R1" "[vault]"
    "[VAULT]" ["eth"] (by decide) (by decide) (by decide) (by decide)

/-- Claim C9: `extract_channels` returns the channel-configuration
names of all policies flattened in encounter order
(`collect_channel_names`) and de-duplicated preserving the first
occurrence of each name (`dedup_first`); a `None` payload and a payload
with no policy both yield the empty list without error. -/
theorem C9_extract_channels_spec :
    (∀ ps : Option (List AlertPolicy),
       extract_channels ps = dedup_first (collect_channel_names ps) ∧
       (extract_channels ps).Nodup ∧
       ∀ x : String, x ∈ extract_channels ps ↔ x ∈ collect_channel_names ps) ∧
    extract_channels none = [] ∧
    extract_channels (some []) = [] := by
  refine ⟨?_, rfl, rfl⟩
  intro ps
  refine ⟨pyDictFromKeys_eq_dedup_first _, ?_, ?_⟩
  · rw [extract_channels, pyDictFromKeys_eq_dedup_first]
    exact nodup_dedup_first _
  · intro x
    rw [extract_channels, pyDictFromKeys_eq_dedup_first]
    exact mem_dedup_first

/-- Claim C3: for every monitor that is not skipped (its name decodes),
the number of rows emitted equals `max 1 d` where `d` is the number of
distinct alert-channel names extracted (`extract_channels` is duplicate
free, so `d` is its length); with zero channels exactly one row is
emitted, whose `monitorAlertChannel` and `Client` fields are the string
`"None"`. -/
theorem C3_rows_per_monitor :
    (∀ (dir : List ChannelEntry) (sn : String) (ps : SuitParse) (wl : WlData) (t : MonParse),
       PerfOpt.parse_watchlist_name (wl.name.getD "") = .ok t →
       (PerfOpt.fetch_watchlist_rows dir sn ps wl).length =
         max 1 (extract_channels wl.alertPolicies).length ∧
       (extract_channels wl.alertPolicies = [] →
         ∃ r : Row, PerfOpt.fetch_watchlist_rows dir sn ps wl = [r] ∧
           r.monitorAlertChannel = "None" ∧ r.Client = "None")) ∧
    (∀ (dir : List ChannelEntry) (sn : String) (ps : SuitParse) (a : AgentData) (t : MonParse),
       PerfOpt.parse_custom_agent_name (a.agentName.getD "") = .ok t →
       (PerfOpt.fetch_agent_rows dir sn ps a).length =
         max 1 (extract_channels a.alertPolicies).length ∧
       (extract_channels a.alertPolicies = [] →
         ∃ r : Row, PerfOpt.fetch_agent_rows dir sn ps a = [r] ∧
           r.monitorAlertChannel = "None" ∧ r.Client = "None")) ∧
    (∀ pols : Option (List AlertPolicy), (extract_channels pols).Nodup) := by
  refine ⟨?_, ?_, ?_⟩
  · intro dir sn ps wl t hp
    obtain ⟨a1, a2, a3, a4, a5, a6, a7⟩ := t
    obtain ⟨s1, s2, s3, s4, s5, s6⟩ := ps
    simp only [PerfOpt.fetch_watchlist_rows, hp]
    cases hE : extract_channels wl.alertPolicies with
    | nil => simp [get_client_dao]
    | cons x xs => simp [List.length_map]
  · intro dir sn ps a t hp
    obtain ⟨a1, a2, a3, a4, a5, a6, a7⟩ := t
    obtain ⟨s1, s2, s3, s4, s5, s6⟩ := ps
    simp only [PerfOpt.fetch_agent_rows, hp]
    cases hE : extract_channels a.alertPolicies with
    | nil => simp [get_client_dao]
    | cons x xs => simp [List.length_map]
  · intro pols
    rw [extract_channels, pyDictFromKeys_eq_dedup_first]
    exact nodup_dedup_first _

/-- Witness for C3, at a concrete watchlist with one channel and a
concrete agent with none. -/
theorem C3_witness :
    (PerfOpt.fetch_watchlist_rows dir0 "S" ps0 wl0).length =
      max 1 (extract_channels wl0.alertPolicies).length ∧
    ∃ r : Row, PerfOpt.fetch_agent_rows dir0 "S" ps0 agentNoRule = [r] ∧
      r.monitorAlertChannel = "None" ∧ r.Client = "None" :=
  ⟨(C3_rows_per_monitor.1 dir0 "S" ps0 wl0 ("R1", "[L2]", "", "", "", "", "arb")
      (by decide)).1,
   (C3_rows_per_monitor.2.1 dir0 "S" ps0 agentNoRule
      ("R1", "[VAULT]", "eth", "", "", "", "") (by decide)).2 (by decide)⟩

/-- If `l.lookup k` finds a value, the pair is a member of `l`. -/
theorem lookup_mem {l : List (String × String)} {k v : String}
    (h : l.lookup k = some v) : (k, v) ∈ l := by
  induction l with
  | nil => simp [List.lookup] at h
  | cons p ps ih =>
    obtain ⟨a, b⟩ := p
    by_cases hka : k = a
    · subst hka
      simp [List.lookup] at h
      simp [h]
    · have hba : (k == a) = false := beq_false_of_ne hka
      simp [List.lookup, hba] at h
      exact List.mem_cons_of_mem _ (ih h)

/-- `get_client_dao` either answers the `"None"` placeholder or an
owner recorded in the channel-to-DAO map. -/
theorem get_client_dao_spec (dir : List ChannelEntry) (ch : String) :
    get_client_dao dir ch = "None" ∨ (ch, get_client_dao dir ch) ∈ channel_dao_map dir := by
  unfold get_client_dao
  by_cases hch : ch ≠ "None"
  · rw [if_pos hch]
    unfold pyDictGet
    cases hlk : (channel_dao_map dir).reverse.lookup ch with
    | none => left; rfl
    | some v =>
      right
      have := lookup_mem hlk
      simpa using List.mem_reverse.1 this
  · rw [if_neg hch]
    left; rfl

/-- Claim C7, counterexample: for a custom agent whose payload lacks
the `rule` field, the optimizer's `_fetch_agent_data` still emits its
rows, but their description is the agent's name — ordinary data, not a
placeholder warning string. -/
theorem C7_counterexample_description_fallback :
    (PerfOpt.fetch_agent_rows [] "S" ps0 agentNoRule).map Row.monitorDescription =
      ["R1 [VAULT] eth"] ∧
    agentNoRule.agentName = some "R1 [VAULT] eth" ∧
    "R1 [VAULT] eth" ≠ "⚠️ Incomplete due to missing ruleString" := by
  decide

/-- Claim C7, amended: when the payload lacks `rule`/`ruleString` and
the agent's name decodes, rows are still emitted (never dropped); in
`get_hn_monitors` (`getHN.py`) their description is the placeholder
warning string, while in the optimizer path (`_fetch_agent_data`) the
description falls back to the agent's name. -/
theorem C7_amended_missing_rule_description :
    (∀ (dir : List ChannelEntry) (sn : String) (ps : SuitParse) (a : AgentData) (t : MonParse),
       (a.rule = none ∨ ∃ ru, a.rule = some ru ∧ ru.ruleString = none) →
       PerfOpt.parse_custom_agent_name (a.agentName.getD "") = .ok t →
       PerfOpt.fetch_agent_rows dir sn ps a ≠ [] ∧
       ∀ r ∈ PerfOpt.fetch_agent_rows dir sn ps a,
         r.monitorDescription = a.agentName.getD "") ∧
    (∀ (m : List (String × String)) (sn : String) (ps : SuitParse) (a : AgentData)
       (t : MonParse),
       (a.rule = none ∨ ∃ ru, a.rule = some ru ∧ ru.ruleString = none) →
       GetHN.parse_custom_agent_name (a.agentName.getD "") = .ok t →
       GetHN.agent_rows m sn ps a ≠ [] ∧
       ∀ r ∈ GetHN.agent_rows m sn ps a,
         r.monitorDescription = "⚠️ Incomplete due to missing ruleString") := by
  constructor
  · intro dir sn ps a t hr hp
    obtain ⟨a1, a2, a3, a4, a5, a6, a7⟩ := t
    obtain ⟨s1, s2, s3, s4, s5, s6⟩ := ps
    simp only [PerfOpt.fetch_agent_rows, hp]
    rcases hr with h | ⟨ru, hru, hrs⟩
    · simp only [h]
      constructor
      · cases hE : extract_channels a.alertPolicies <;> simp [hE]
      · intro r hrr
        obtain ⟨ch, hch, rfl⟩ := List.mem_map.1 hrr
        rfl
    · simp only [hru, hrs]
      constructor
      · cases hE : extract_channels a.alertPolicies <;> simp [hE]
      · intro r hrr
        obtain ⟨ch, hch, rfl⟩ := List.mem_map.1 hrr
        rfl
  · intro m sn ps a t hr hp
    obtain ⟨a1, a2, a3, a4, a5, a6, a7⟩ := t
    obtain ⟨s1, s2, s3, s4, s5, s6⟩ := ps
    simp only [GetHN.agent_rows, hp]
    rcases hr with h | ⟨ru, hru, hrs⟩
    · simp only [h]
      constructor
      · cases hE : extract_channels a.alertPolicies <;> simp [hE]
      · intro r hrr
        obtain ⟨ch, hch, rfl⟩ := List.mem_map.1 hrr
        rfl
    · simp only [hru, hrs]
      constructor
      · cases hE : extract_channels a.alertPolicies <;> simp [hE]
      · intro r hrr
        obtain ⟨ch, hch, rfl⟩ := List.mem_map.1 hrr
        rfl

/-- Witness for the amended C7, at a concrete agent payload lacking
`rule`. -/
theorem C7_amended_witness :
    PerfOpt.fetch_agent_rows dir0 "S" ps0 agentNoRule ≠ [] ∧
    ghAgentRow.monitorDescription = "⚠️ Incomplete due to missing ruleString" :=
  ⟨(C7_amended_missing_rule_description.1 dir0 "S" ps0 agentNoRule
      ("R1", "[VAULT]", "eth", "", "", "", "") (Or.inl rfl) (by decide)).1,
   (C7_amended_missing_rule_description.2 [] "S" ps0 agentNoRule
      ("R1", "[VAULT]", "eth", "", "", "", "") (Or.inl rfl) (by decide)).2
     ghAgentRow (by decide)⟩

/-- Claim C8: the channel-to-client map keeps exactly the directory
entries with a real owner (`dao` present, non-empty and not the
`"None"` sentinel), and every emitted row's `Client` field is the
`get_client_dao` resolution of that row's channel — an owner recorded
in the map, or the literal string `"None"`; the field is always a
string, never null or absent. -/
theorem C8_client_resolution :
    (∀ (dir : List ChannelEntry) (k v : String),
       (k, v) ∈ channel_dao_map dir ↔
         ∃ e ∈ dir, e.name = k ∧ e.dao = some v ∧ v ≠ "" ∧ v ≠ "None") ∧
    (∀ (dir : List ChannelEntry) (sn : String) (ps : SuitParse) (wl : WlData),
       ∀ r ∈ PerfOpt.fetch_watchlist_rows dir sn ps wl,
         r.Client = get_client_dao dir r.monitorAlertChannel ∧
         (r.Client = "None" ∨ (r.monitorAlertChannel, r.Client) ∈ channel_dao_map dir)) ∧
    (∀ (dir : List ChannelEntry) (sn : String) (ps : SuitParse) (a : AgentData),
       ∀ r ∈ PerfOpt.fetch_agent_rows dir sn ps a,
         r.Client = get_client_dao dir r.monitorAlertChannel ∧
         (r.Client = "None" ∨ (r.monitorAlertChannel, r.Client) ∈ channel_dao_map dir)) := by
  refine ⟨?_, ?_, ?_⟩
  · intro dir k v
    unfold channel_dao_map
    rw [List.mem_filterMap]
    constructor
    · rintro ⟨e, he, hfe⟩
      refine ⟨e, he, ?_⟩
      rcases hde : e.dao with _ | d
      · rw [hde] at hfe; simp at hfe
      · rw [hde] at hfe
        dsimp only at hfe
        by_cases hd : d ≠ "" ∧ d ≠ "None"
        · rw [if_pos hd] at hfe
          have hpq := Option.some.inj hfe
          have hn : e.name = k := congrArg Prod.fst hpq
          have hdv : d = v := congrArg Prod.snd hpq
          exact ⟨hn, by rw [hdv], hdv ▸ hd.1, hdv ▸ hd.2⟩
        · rw [if_neg hd] at hfe; simp at hfe
    · rintro ⟨e, he, hname, hdao, hv1, hv2⟩
      refine ⟨e, he, ?_⟩
      rw [hdao]
      simp [hv1, hv2, hname]
  · intro dir sn ps wl r hr
    cases hp : PerfOpt.parse_watchlist_name (wl.name.getD "") with
    | ok t =>
      obtain ⟨a1, a2, a3, a4, a5, a6, a7⟩ := t
      obtain ⟨s1, s2, s3, s4, s5, s6⟩ := ps
      simp only [PerfOpt.fetch_watchlist_rows, hp, List.mem_map] at hr
      obtain ⟨ch, hch, rfl⟩ := hr
      exact ⟨rfl, get_client_dao_spec dir ch⟩
    | noMatch =>
      simp only [PerfOpt.fetch_watchlist_rows, hp] at hr
      cases hr
    | err =>
      simp only [PerfOpt.fetch_watchlist_rows, hp] at hr
      cases hr
  · intro dir sn ps a r hr
    cases hp : PerfOpt.parse_custom_agent_name (a.agentName.getD "") with
    | ok t =>
      obtain ⟨a1, a2, a3, a4, a5, a6, a7⟩ := t
      obtain ⟨s1, s2, s3, s4, s5, s6⟩ := ps
      simp only [PerfOpt.fetch_agent_rows, hp, List.mem_map] at hr
      obtain ⟨ch, hch, rfl⟩ := hr
      exact ⟨rfl, get_client_dao_spec dir ch⟩
    | noMatch =>
      simp only [PerfOpt.fetch_agent_rows, hp] at hr
      cases hr
    | err =>
      simp only [PerfOpt.fetch_agent_rows, hp] at hr
      cases hr

/-- Witness for C8, at the concrete watchlist row of `wl0` resolved
against `dir0`. -/
theorem C8_witness :
    wlRow.Client = get_client_dao dir0 wlRow.monitorAlertChannel ∧
    (wlRow.Client = "None" ∨ (wlRow.monitorAlertChannel, wlRow.Client) ∈ channel_dao_map dir0) :=
  C8_client_resolution.2.1 dir0 "S" ps0 wl0 wlRow (by decide)

/-- Claim C4: `get_hn_monitors_optimized` returns the cached table when
`force_refresh` is false and the cache is valid and loadable; otherwise
it runs ingestion, returns the fresh table regardless of emptiness, and
writes the cache only when the fresh table is non-empty (a fatal fetch
error yields an empty table and leaves the cache untouched). -/
theorem C4_pipeline_cache_policy :
    ∀ (force : Bool) (now : Nat) (st : CacheState) (fetched : Except Unit (List Row))
      (t rows : List Row),
      (force = false → PerfOpt.load_from_cache now st = some t →
        PerfOpt.get_hn_monitors_optimized force now st fetched = (t, st)) ∧
      ((force = true ∨ PerfOpt.load_from_cache now st = none) → fetched = .ok rows →
        PerfOpt.get_hn_monitors_optimized force now st fetched =
          (rows, if rows.isEmpty then st else PerfOpt.save_to_cache now rows st)) ∧
      ((force = true ∨ PerfOpt.load_from_cache now st = none) → fetched = .error () →
        PerfOpt.get_hn_monitors_optimized force now st fetched = ([], st)) := by
  intro force now st fetched t rows
  refine ⟨?_, ?_, ?_⟩
  · intro hf hl
    subst hf
    simp [PerfOpt.get_hn_monitors_optimized, hl]
  · rintro hfl rfl
    have hrun : PerfOpt.run_ingestion now st (.ok rows) =
        (rows, if rows.isEmpty then st else PerfOpt.save_to_cache now rows st) := by
      cases hE : rows.isEmpty <;> simp [PerfOpt.run_ingestion, hE]
    rcases hfl with hf | hl
    · subst hf
      simpa [PerfOpt.get_hn_monitors_optimized] using hrun
    · cases force
      · simpa [PerfOpt.get_hn_monitors_optimized, hl] using hrun
      · simpa [PerfOpt.get_hn_monitors_optimized] using hrun
  · rintro hfl rfl
    rcases hfl with hf | hl
    · subst hf
      simp [PerfOpt.get_hn_monitors_optimized, PerfOpt.run_ingestion]
    · cases force
      · simp [PerfOpt.get_hn_monitors_optimized, hl, PerfOpt.run_ingestion]
      · simp [PerfOpt.get_hn_monitors_optimized, PerfOpt.run_ingestion]

/-- Witness for C4: a valid cached table is returned as-is when not
forcing; a forced run with an empty fresh result returns the empty
table without overwriting the cache. -/
theorem C4_witness :
    PerfOpt.get_hn_monitors_optimized false 0 (PerfOpt.save_to_cache 0 [sampleRow] ⟨none, none⟩)
        (.ok []) = ([sampleRow], PerfOpt.save_to_cache 0 [sampleRow] ⟨none, none⟩) ∧
    PerfOpt.get_hn_monitors_optimized true 0 (PerfOpt.save_to_cache 0 [sampleRow] ⟨none, none⟩)
        (.ok []) = ([], PerfOpt.save_to_cache 0 [sampleRow] ⟨none, none⟩) :=
  ⟨(C4_pipeline_cache_policy false 0 _ (.ok []) [sampleRow] []).1 rfl (by decide),
   (C4_pipeline_cache_policy true 0 (PerfOpt.save_to_cache 0 [sampleRow] ⟨none, none⟩)
      (.ok []) [sampleRow] []).2.1 (Or.inl rfl) rfl⟩

/-- Claim C5, counterexample: immediately after a save, the program's
only cache-refresh control (`refresh_data_action`, the Refresh Data
button) leaves `is_cache_valid` true and `load_from_cache` still
returning the snapshot — there is no operation after which `isValid` is
false and `load` absent until the next save. -/
theorem C5_counterexample_no_invalidate :
    PerfOpt.is_cache_valid 0
        (refresh_data_action (PerfOpt.save_to_cache 0 [sampleRow] ⟨none, none⟩)).2 = true ∧
    PerfOpt.load_from_cache 0
        (refresh_data_action (PerfOpt.save_to_cache 0 [sampleRow] ⟨none, none⟩)).2 =
      some [sampleRow] := by
  decide

/-- Claim C5, amended: the cache store exposes no `invalidate()`; the
Refresh Data control only raises a force-refresh flag and leaves the
disk cache state unchanged.  A forced pipeline call bypasses the cache
read unconditionally, and on a non-empty fresh result supersedes the
old snapshot via `save_to_cache`. -/
theorem C5_amended_refresh_is_flag_only :
    (∀ st : CacheState, refresh_data_action st = (true, st)) ∧
    (∀ (now : Nat) (st : CacheState) (fetched : Except Unit (List Row)),
       PerfOpt.get_hn_monitors_optimized true now st fetched =
         PerfOpt.run_ingestion now st fetched) ∧
    (∀ (now : Nat) (st : CacheState) (rows : List Row), rows ≠ [] →
       PerfOpt.get_hn_monitors_optimized true now st (.ok rows) =
         (rows, PerfOpt.save_to_cache now rows st)) := by
  refine ⟨fun _ => rfl, fun now st fetched => rfl, ?_⟩
  intro now st rows hne
  cases rows with
  | nil => exact absurd rfl hne
  | cons x xs => rfl

/-- Witness for the amended C5, at a concrete non-empty fresh result. -/
theorem C5_amended_witness :
    PerfOpt.get_hn_monitors_optimized true 0 ⟨none, none⟩ (.ok [sampleRow]) =
      ([sampleRow], PerfOpt.save_to_cache 0 [sampleRow] ⟨none, none⟩) :=
  C5_amended_refresh_is_flag_only.2.2 0 ⟨none, none⟩ [sampleRow] (by decide)

end HN
